import Mathlib

/-!
Verification of the service lifecycle management subsystem of `servicer`.

The development shallowly embeds the two handler source files:

* `src/handlers/handle_create_service.rs` — service creation: name/path
  resolution, run-as user resolution, interpreter inference, working-directory
  resolution, unit-file synthesis (`create_service_file`), persistence, and the
  chained start/enable/status steps;
* `src/handlers/handle_restart_service.rs` — restart as stop-then-start.

External collaborators (PATH lookup via `find_binary_path`, the name/path
resolvers in `utils/service_names`, `Path` methods from the Rust standard
library, the process environment, and the systemd control plane) are
abstracted as fields of an explicit environment record, and the handler
effects (file writes, prints, control-plane calls) are recorded as an ordered
trace.
-/

/-- Arguments of the `create` subcommand (struct `CreateArgs` in
`handle_create_service.rs`). `debug` is the dry-run flag. -/
structure CreateArgs where
  name : Option String
  directory : Option String
  debug : Bool
  user : Option String
  start : Bool
  enable : Bool
  auto_restart : Bool
  interpreter : Option String
  env_vars : List String
  command : List String

/-- Abstraction of everything `handle_create_service` consults outside its own
source file: the filesystem, the process environment, the `Path` methods of
the Rust standard library, the name resolvers of `utils/service_names`, the
user-scoped PATH lookup `find_binary_path` (an external collaborator per the
specification), and the success of the chained effectful steps. -/
structure Env where
  fileExists : String → Bool
  sudoUser : Option String
  userVar : Option String
  findBinaryPath : String → String → Option String
  canonicalize : String → Option String
  currentDir : String
  pathExtension : String → Option String
  pathFileName : String → Option String
  pathParent : String → Option String
  pathIsFile : String → Bool
  fullServiceName : String → String
  serviceFilePath : String → String
  writeOk : Bool
  startOk : Bool
  enableOk : Bool
  statusOk : Bool

/-- Observable effects of `handle_create_service`, in program order:
filesystem writes, prints, and the control-plane calls made through
`handle_start_service`, `handle_enable_service` and `handle_show_status`. -/
inductive Effect where
  | write (path content : String)
  | print (s : String)
  | startService (name : String)
  | enableService (name : String)
  | showStatus

/-- Result of a handler run: the ordered effect trace together with either
normal completion or the message of the panic / propagated error that ended
the run. -/
structure Outcome where
  effects : List Effect
  result : Except String Unit

/-- `get_interpreter` from `handle_create_service.rs` (lines 162-171): maps a
file extension to the default interpreter name. -/
def get_interpreter (extension : Option String) : Option String :=
  match extension with
  | none => none
  | some extension_str =>
    match extension_str with
    | "js" => some "node"
    | "py" => some "python3"
    | _ => none

/-- `create_service_file` from `handle_create_service.rs` (lines 174-208).
The template literal is written here one line fragment at a time; the
concatenation of the fragments is byte-for-byte the dedented `formatdoc!`
template of the source (see `create_service_file_template_check`). -/
def create_service_file (command : List String) (directory : String) (user : String)
    (env_vars : List String) (auto_restart : Bool) : String :=
  let cmd0 := String.intercalate " " command
  let cmd1 := if auto_restart then cmd0 ++ ("\n" ++ "Restart=always") else cmd0
  let cmd := env_vars.foldl (fun c var => c ++ ("\n" ++ ("Environment=" ++ var))) cmd1
  "# Generated with Servicer" ++ "\n" ++
  "[Unit]" ++ "\n" ++
  "After=network.target" ++ "\n" ++
  "" ++ "\n" ++
  "[Service]" ++ "\n" ++
  "Type=simple" ++ "\n" ++
  "User=" ++ user ++ "\n" ++
  "" ++ "\n" ++
  "WorkingDirectory=" ++ directory ++ "\n" ++
  "ExecStart=" ++ cmd ++ "\n" ++
  "" ++ "\n" ++
  "[Install]" ++ "\n" ++
  "WantedBy=multi-user.target" ++ "\n"

/-- Renders a list of lines, terminating every line with a newline. -/
def renderLines : List String → String
  | [] => ""
  | l :: ls => l ++ "\n" ++ renderLines ls

/-- The unit definition as the specification describes it, line by line: a
leading generator comment, a `[Unit]` stanza with `After=network.target`, a
`[Service]` stanza with `Type=simple`, `User=`, `WorkingDirectory=`, an
`ExecStart=` line holding the space-joined command, then `Restart=always`
iff the auto-restart flag is set, then one `Environment=` line per input
environment entry in input order, and an `[Install]` stanza with
`WantedBy=multi-user.target`. -/
def unit_file_lines (command : List String) (directory : String) (user : String)
    (env_vars : List String) (auto_restart : Bool) : List String :=
  ["# Generated with Servicer",
   "[Unit]",
   "After=network.target",
   "",
   "[Service]",
   "Type=simple",
   "User=" ++ user,
   "",
   "WorkingDirectory=" ++ directory,
   "ExecStart=" ++ String.intercalate " " command]
  ++ (if auto_restart then ["Restart=always"] else [])
  ++ env_vars.map (fun v => "Environment=" ++ v)
  ++ ["", "[Install]", "WantedBy=multi-user.target"]

/-- The suffix that the `env_vars` loop of `create_service_file` appends to
the start directive. -/
def envTail : List String → String
  | [] => ""
  | v :: vs => ("\n" ++ ("Environment=" ++ v)) ++ envTail vs

/-- Fully resolved unit specification, as assembled by `handle_create_service`
before synthesis: service name, unit-file path, run-as user, final command
line (interpreter already prepended when applicable), absolute working
directory, environment-variable list and restart flag. -/
structure ResolvedUnitSpec where
  serviceName : String
  serviceFilePath : String
  user : String
  command : List String
  directory : String
  envVars : List String
  autoRestart : Bool

/-- Working-directory resolution of `handle_create_service` (lines 109-123):
canonicalize the explicit directory if given; otherwise, when an interpreter
was resolved, take the parent of the target path (current directory when the
parent is the empty string, canonicalized otherwise); otherwise the current
directory. Failures are the `expect`/`unwrap` panics of the source. -/
def resolve_directory (args : CreateArgs) (env : Env) (path : String)
    (interpreter : Option String) : Except String String :=
  match args.directory with
  | some d =>
    match env.canonicalize d with
    | some dir => Except.ok dir
    | none => Except.error "Unknown directory"
  | none =>
    match interpreter with
    | some _ =>
      match env.pathParent path with
      | none => Except.error "called Option.unwrap on a None value"
      | some p =>
        if p = "" then Except.ok env.currentDir
        else
          match env.canonicalize p with
          | some dir => Except.ok dir
          | none => Except.error "called Result.unwrap on an Err value"
    | none => Except.ok env.currentDir

/-- Final command assembly of `handle_create_service` (lines 125-137): prepend
the resolved interpreter when there is one; otherwise, when the target is not
a file, replace the first token with its PATH resolution if that lookup
succeeds, and leave the command unchanged if it does not. -/
def resolved_command (args : CreateArgs) (env : Env) (path user : String)
    (interpreter : Option String) : List String :=
  match interpreter with
  | some i => i :: args.command
  | none =>
    if env.pathIsFile path then args.command
    else
      match env.findBinaryPath path user with
      | some bin => bin :: args.command.tail
      | none => args.command

/-- Tail of the resolution pipeline of `handle_create_service`, after the
interpreter has been resolved to a binary (lines 109-139): working directory,
then the final command, then the assembled `ResolvedUnitSpec`. -/
def resolve_tail (args : CreateArgs) (env : Env)
    (path service_name service_file_path user : String)
    (interpreter : Option String) : Except String ResolvedUnitSpec :=
  match resolve_directory args env path interpreter with
  | Except.error e => Except.error e
  | Except.ok directory =>
    Except.ok
      { serviceName := service_name
        serviceFilePath := service_file_path
        user := user
        command := resolved_command args env path user interpreter
        directory := directory
        envVars := args.env_vars
        autoRestart := args.auto_restart }

/-- Resolution phase of `handle_create_service` (lines 76-139): target path
from the first command token, service name (custom name or file name of the
target), unit-file path, existence check, run-as user (explicit, else
SUDO_USER, else USER), interpreter (explicit, else inferred from the
extension) resolved through the user-scoped PATH lookup, then
`resolve_tail`. Each `Except.error` is a panic of the source. -/
def resolve_create (args : CreateArgs) (env : Env) : Except String ResolvedUnitSpec :=
  match args.command.head? with
  | none => Except.error "No command provided"
  | some path =>
    match args.name.or (env.pathFileName path) with
    | none => Except.error "called Option.unwrap on a None value"
    | some service_name =>
      let full_service_name := env.fullServiceName service_name
      let service_file_path := env.serviceFilePath full_service_name
      if env.fileExists service_file_path then
        Except.error ("Service " ++ service_name ++ " already exists at " ++
          service_file_path ++
          ". Provide a custom name with --name or delete the existing service with `ser delete " ++
          service_name)
      else
        match (args.user.or env.sudoUser).or env.userVar with
        | none => Except.error "USER is not set"
        | some user =>
          match args.interpreter.or (get_interpreter (env.pathExtension path)) with
          | some i =>
            match env.findBinaryPath i user with
            | none => Except.error "No binary for interpreter"
            | some bin => resolve_tail args env path service_name service_file_path user (some bin)
          | none => resolve_tail args env path service_name service_file_path user none

/-- Effectful phase of `handle_create_service` (lines 140-152): print the
synthesized text and stop when the dry-run flag is set; otherwise write the
unit file, print the created message, then run the optional start and enable
steps (each `unwrap`ped, so a failure ends the run) and finally the status
query (whose error propagates). -/
def execute_create (args : CreateArgs) (env : Env) (spec : ResolvedUnitSpec) : Outcome :=
  let service_body :=
    create_service_file spec.command spec.directory spec.user spec.envVars spec.autoRestart
  if args.debug then
    { effects := [Effect.print service_body], result := Except.ok () }
  else if !env.writeOk then
    { effects := [Effect.write spec.serviceFilePath service_body],
      result := Except.error "failed to write service file" }
  else
    let ef0 := [Effect.write spec.serviceFilePath service_body,
                Effect.print ("Service " ++ spec.serviceName ++ " created at " ++
                  spec.serviceFilePath ++ ". To start run `ser start " ++
                  spec.serviceName ++ "`")]
    if args.start && !env.startOk then
      { effects := ef0 ++ [Effect.startService spec.serviceName],
        result := Except.error "failed to start service" }
    else
      let ef1 := ef0 ++ (if args.start then [Effect.startService spec.serviceName] else [])
      if args.enable && !env.enableOk then
        { effects := ef1 ++ [Effect.enableService spec.serviceName],
          result := Except.error "failed to enable service" }
      else
        let ef2 := ef1 ++ (if args.enable then [Effect.enableService spec.serviceName] else [])
        { effects := ef2 ++ [Effect.showStatus],
          result := if env.statusOk then Except.ok () else Except.error "failed to show status" }

/-- `handle_create_service` from `handle_create_service.rs` (lines 75-154):
the resolution phase performs no effect; a resolution failure ends the run
with an empty trace, otherwise the effectful phase runs. -/
def handle_create_service (args : CreateArgs) (env : Env) : Outcome :=
  match resolve_create args env with
  | Except.error e => { effects := [], result := Except.error e }
  | Except.ok spec => execute_create args env spec

/-- Outcome of the awaited stop call of a restart, as the specification
describes it: the unit stopped, the unit was not running ("already stopped"
is not an error), or the stop job failed for another reason.
Modelled from the spec: the bodies of `start_service` and `stop_service`
(in `utils/service_actions.rs`) are not under `src/`; per §4.4 and §7 they
are awaited control-plane calls whose outcome is reported but does not abort
the surrounding compound action. -/
inductive StopOutcome where
  | stopped
  | notRunning
  | failed

/-- Abstraction of what `handle_restart_service` consults outside its own
source file: the system-bus connection, the outcome the awaited stop call
reports, the status query, and the name resolver. -/
structure RestartEnv where
  connOk : Bool
  stopOutcome : StopOutcome
  statusOk : Bool
  fullServiceName : String → String

/-- Observable effects of `handle_restart_service`, in program order. The
stop effect records the outcome the control plane reported for the awaited
stop job. -/
inductive RestartEffect where
  | stopUnit (unit : String) (outcome : StopOutcome)
  | startUnit (unit : String)
  | print (s : String)
  | showStatus

/-- Result of a restart run: ordered effect trace plus completion or error. -/
structure RestartOutcome where
  effects : List RestartEffect
  result : Except String Unit

/-- `handle_restart_service` from `handle_restart_service.rs` (lines 17-39):
connect to the system bus, stop the unit (awaited; its reported outcome is
not consulted), print "Stopped", start the unit (awaited), print "Started",
then optionally show status. -/
def handle_restart_service (name : String) (show_status : Bool)
    (env : RestartEnv) : RestartOutcome :=
  if !env.connOk then
    { effects := [], result := Except.error "failed to connect to the system bus" }
  else
    let full_service_name := env.fullServiceName name
    let ef := [RestartEffect.stopUnit full_service_name env.stopOutcome,
               RestartEffect.print ("Stopped " ++ name),
               RestartEffect.startUnit full_service_name,
               RestartEffect.print ("Started " ++ name)]
    if show_status then
      { effects := ef ++ [RestartEffect.showStatus],
        result := if env.statusOk then Except.ok () else Except.error "failed to show status" }
    else
      { effects := ef, result := Except.ok () }

/-- Concrete environment used by the evaluation witnesses: a host with no
pre-existing unit files, user `alice`, `node` and `python3` on PATH, and a
target script `index.js` in the current directory. -/
def sampleEnv : Env where
  fileExists := fun _ => false
  sudoUser := none
  userVar := some "alice"
  findBinaryPath := fun nm _ =>
    if nm = "node" then some "/usr/bin/node"
    else if nm = "python3" then some "/usr/bin/python3"
    else none
  canonicalize := fun d => some ("/abs/" ++ d)
  currentDir := "/home/alice"
  pathExtension := fun p => if p = "index.js" then some "js" else none
  pathFileName := fun p => some p
  pathParent := fun p => if p = "index.js" then some "" else none
  pathIsFile := fun _ => false
  fullServiceName := fun n => n ++ ".ser.service"
  serviceFilePath := fun n => "/etc/systemd/system/" ++ n
  writeOk := true
  startOk := true
  enableOk := true
  statusOk := true

/-- Concrete create invocation used by the evaluation witnesses:
`ser create index.js -v FOO=BAR -r -s -e`. -/
def sampleArgs : CreateArgs where
  name := none
  directory := none
  debug := false
  user := none
  start := true
  enable := true
  auto_restart := true
  interpreter := none
  env_vars := ["FOO=BAR"]
  command := ["index.js"]

/-- The resolved specification `resolve_create` produces for `sampleArgs` in
`sampleEnv`. -/
def sampleSpec : ResolvedUnitSpec where
  serviceName := "index.js"
  serviceFilePath := "/etc/systemd/system/index.js.ser.service"
  user := "alice"
  command := ["/usr/bin/node", "index.js"]
  directory := "/home/alice"
  envVars := ["FOO=BAR"]
  autoRestart := true

/-- Working-directory resolution as the specification words it: the explicit
directory (canonicalized) when present; otherwise, when an interpreter was
resolved, the parent of the target file (the current directory when that
parent is empty, resolved otherwise); otherwise the current directory.
`none` marks the panic cases of the source. -/
def spec_working_directory (args : CreateArgs) (env : Env) (path : String)
    (interpreterResolved : Bool) : Option String :=
  match args.directory with
  | some d => env.canonicalize d
  | none =>
    if interpreterResolved then
      match env.pathParent path with
      | none => none
      | some p => if p = "" then some env.currentDir else env.canonicalize p
    else some env.currentDir

/-- Extension-to-interpreter mapping as the specification words it:
`js` maps to the node runtime, `py` to `python3`, anything else to no
interpreter. -/
def ext_to_interpreter (ext : String) : Option String :=
  if ext = "js" then some "node"
  else if ext = "py" then some "python3"
  else none

/-- Recognizes filesystem-write effects. -/
def Effect.isWrite : Effect → Bool
  | Effect.write _ _ => true
  | _ => false

/-- Restart environment used by the evaluation witness: the stop call reports
that the unit was not running. -/
def sampleRestartEnv : RestartEnv where
  connOk := true
  stopOutcome := StopOutcome.notRunning
  statusOk := true
  fullServiceName := fun n => n ++ ".ser.service"

/-- Environment in which the unit-file path of every service already exists. -/
def sampleEnvTaken : Env := { sampleEnv with fileExists := fun _ => true }

/-- Same occupied host, with every facility consulted by user, interpreter and
working-directory resolution altered. -/
def sampleEnvTakenAlt : Env :=
  { sampleEnvTaken with
    sudoUser := some "bob"
    userVar := none
    findBinaryPath := fun _ _ => none
    canonicalize := fun _ => none
    currentDir := "/"
    pathExtension := fun _ => none
    pathIsFile := fun _ => true
    startOk := false
    enableOk := false
    statusOk := false }

/-- The witness create invocation with the dry-run flag set. -/
def sampleArgsDry : CreateArgs := { sampleArgs with debug := true }

/-- Create invocation for the PATH-fallback witness: a bare command name with
no recognized extension. -/
def sampleArgsBin : CreateArgs where
  name := none
  directory := none
  debug := false
  user := none
  start := false
  enable := false
  auto_restart := false
  interpreter := none
  env_vars := []
  command := ["myprog"]

/-- The resolved specification `resolve_create` produces for `sampleArgsBin`
in `sampleEnv`, where the fallback PATH lookup fails and the command is left
unchanged. -/
def sampleSpecBin : ResolvedUnitSpec where
  serviceName := "myprog"
  serviceFilePath := "/etc/systemd/system/myprog.ser.service"
  user := "alice"
  command := ["myprog"]
  directory := "/home/alice"
  envVars := []
  autoRestart := false

/-- Sanity check tying the fragment-by-fragment template above to the verbatim
dedented `formatdoc!` text of the Rust source, on a concrete input. -/
theorem create_service_file_template_check :
    create_service_file ["/usr/bin/node", "index.js"] "/srv/app" "alice" ["FOO=BAR"] true =
      "# Generated with Servicer\n[Unit]\nAfter=network.target\n\n[Service]\nType=simple\nUser=alice\n\nWorkingDirectory=/srv/app\nExecStart=/usr/bin/node index.js\nRestart=always\nEnvironment=FOO=BAR\n\n[Install]\nWantedBy=multi-user.target\n" := rfl

theorem foldl_envTail (vars : List String) (init : String) :
    vars.foldl (fun c var => c ++ ("\n" ++ ("Environment=" ++ var))) init = init ++ envTail vars := by
  induction vars generalizing init with
  | nil => simp [envTail, String.append_empty]
  | cons v vs ih => simp [envTail, ih, String.append_assoc]

theorem empty_string_append (s : String) : "" ++ s = s := rfl

theorem renderLines_append (xs ys : List String) :
    renderLines (xs ++ ys) = renderLines xs ++ renderLines ys := by
  induction xs with
  | nil => simp [renderLines]
  | cons x xs ih => simp [renderLines, ih, String.append_assoc]

theorem envTail_render (vars : List String) (s : String) :
    envTail vars ++ ("\n" ++ s) =
      "\n" ++ (renderLines (vars.map (fun v => "Environment=" ++ v)) ++ s) := by
  induction vars generalizing s with
  | nil => simp [envTail, renderLines]
  | cons v vs ih =>
    simp only [envTail, List.map_cons, renderLines, String.append_assoc, ih]

/-- Claim C1: for every resolved unit specification with a non-empty command
list, the synthesized unit definition text is exactly the fixed template —
generator comment, `[Unit]` stanza with `After=network.target`, `[Service]`
stanza with `Type=simple`, `User=`, `WorkingDirectory=`, an `ExecStart=` line
equal to the space-joined command tokens, then `Restart=always` iff the
auto-restart flag is set, then one `Environment=` line per input environment
entry in input order, and an `[Install]` stanza with
`WantedBy=multi-user.target`. -/
theorem create_service_file_is_template (command : List String) (directory user : String)
    (env_vars : List String) (auto_restart : Bool) (h : command ≠ []) :
    create_service_file command directory user env_vars auto_restart =
      renderLines (unit_file_lines command directory user env_vars auto_restart) := by
  unfold create_service_file unit_file_lines
  dsimp only
  rw [foldl_envTail]
  cases auto_restart <;>
    simp only [if_true, if_false, Bool.false_eq_true, ite_false, ite_true,
      renderLines_append, renderLines, String.append_assoc, envTail_render,
      String.append_empty, empty_string_append, List.append_eq, List.nil_append,
      List.append_nil, List.cons_append, List.append_assoc]

theorem create_service_file_is_template_witness :
    (["/usr/bin/node", "index.js"] : List String) ≠ [] ∧
      create_service_file ["/usr/bin/node", "index.js"] "/srv/app" "alice" ["FOO=BAR"] true =
        renderLines (unit_file_lines ["/usr/bin/node", "index.js"] "/srv/app" "alice" ["FOO=BAR"] true) :=
  ⟨by decide,
   create_service_file_is_template ["/usr/bin/node", "index.js"] "/srv/app" "alice" ["FOO=BAR"] true
     (by decide)⟩

theorem sample_resolves : resolve_create sampleArgs sampleEnv = Except.ok sampleSpec := rfl

theorem get_interpreter_some (e : String) : get_interpreter (some e) = ext_to_interpreter e := by
  unfold get_interpreter ext_to_interpreter
  dsimp only
  split <;> simp_all

theorem resolve_directory_ok (args : CreateArgs) (env : Env) (path : String)
    (interpreter : Option String) (d : String)
    (h : resolve_directory args env path interpreter = Except.ok d) :
    spec_working_directory args env path interpreter.isSome = some d := by
  unfold resolve_directory at h
  unfold spec_working_directory
  cases hd : args.directory with
  | some dd =>
    simp only [hd] at h ⊢
    cases hc : env.canonicalize dd <;> simp_all
  | none =>
    simp only [hd] at h ⊢
    cases hi : interpreter with
    | none => simp_all
    | some i =>
      simp only [hi] at h
      simp only [Option.isSome_some, if_true, ite_true]
      cases hpp : env.pathParent path with
      | none => simp only [hpp] at h; cases h
      | some p =>
        simp only [hpp] at h ⊢
        by_cases hpe : p = ""
        · simp_all
        · simp only [hpe, if_false, ite_false] at h ⊢
          cases hc : env.canonicalize p <;> simp_all

theorem resolve_tail_ok (args : CreateArgs) (env : Env)
    (path service_name service_file_path user : String)
    (interpreter : Option String) (spec : ResolvedUnitSpec)
    (h : resolve_tail args env path service_name service_file_path user interpreter =
      Except.ok spec) :
    spec.serviceName = service_name ∧ spec.serviceFilePath = service_file_path ∧
    spec.user = user ∧ spec.envVars = args.env_vars ∧ spec.autoRestart = args.auto_restart ∧
    spec_working_directory args env path interpreter.isSome = some spec.directory ∧
    spec.command = resolved_command args env path user interpreter := by
  unfold resolve_tail at h
  cases hd : resolve_directory args env path interpreter with
  | error e => rw [hd] at h; cases h
  | ok dir =>
    rw [hd] at h
    cases h
    exact ⟨rfl, rfl, rfl, rfl, rfl, resolve_directory_ok args env path interpreter dir hd, rfl⟩

theorem resolve_create_ok_inv (args : CreateArgs) (env : Env) (spec : ResolvedUnitSpec)
    (path : String) (hp : args.command.head? = some path)
    (hok : resolve_create args env = Except.ok spec) :
    ∃ service_name user interpreter,
      args.name.or (env.pathFileName path) = some service_name ∧
      (args.user.or env.sudoUser).or env.userVar = some user ∧
      (match args.interpreter.or (get_interpreter (env.pathExtension path)) with
       | some i => ∃ bin, env.findBinaryPath i user = some bin ∧ interpreter = some bin
       | none => interpreter = none) ∧
      resolve_tail args env path service_name
        (env.serviceFilePath (env.fullServiceName service_name)) user interpreter =
        Except.ok spec := by
  unfold resolve_create at hok
  simp only [hp] at hok
  cases hn : args.name.or (env.pathFileName path) with
  | none => simp only [hn] at hok; cases hok
  | some n =>
    simp only [hn] at hok
    cases hex : env.fileExists (env.serviceFilePath (env.fullServiceName n)) with
    | true => simp only [hex, if_true, ite_true] at hok; cases hok
    | false =>
      simp only [hex, Bool.false_eq_true, if_false, ite_false] at hok
      cases hu : (args.user.or env.sudoUser).or env.userVar with
      | none => simp only [hu] at hok; cases hok
      | some u =>
        simp only [hu] at hok
        cases hi : args.interpreter.or (get_interpreter (env.pathExtension path)) with
        | none =>
          simp only [hi] at hok
          exact ⟨n, u, none, rfl, rfl, rfl, hok⟩
        | some i =>
          simp only [hi] at hok
          cases hb : env.findBinaryPath i u with
          | none => simp only [hb] at hok; cases hok
          | some bin =>
            simp only [hb] at hok
            exact ⟨n, u, some bin, rfl, rfl, ⟨bin, hb, rfl⟩, hok⟩

/-- Claim C5: the synthesizer is deterministic and byte-stable — two calls of
`create_service_file` with equal command list, working directory, user,
environment-variable list and auto-restart flag produce identical strings. -/
theorem synthesize_deterministic (c1 c2 : List String) (d1 d2 u1 u2 : String)
    (v1 v2 : List String) (r1 r2 : Bool)
    (hc : c1 = c2) (hd : d1 = d2) (hu : u1 = u2) (hv : v1 = v2) (hr : r1 = r2) :
    create_service_file c1 d1 u1 v1 r1 = create_service_file c2 d2 u2 v2 r2 := by
  rw [hc, hd, hu, hv, hr]

theorem synthesize_deterministic_witness :
    (["node", "app.js"] : List String) = ["node", "app.js"] ∧ ("/srv" : String) = "/srv" ∧
    ("root" : String) = "root" ∧ (["A=B"] : List String) = ["A=B"] ∧ true = true ∧
    create_service_file ["node", "app.js"] "/srv" "root" ["A=B"] true =
      create_service_file ["node", "app.js"] "/srv" "root" ["A=B"] true :=
  ⟨rfl, rfl, rfl, rfl, rfl,
   synthesize_deterministic ["node", "app.js"] ["node", "app.js"] "/srv" "/srv" "root" "root"
     ["A=B"] ["A=B"] true true rfl rfl rfl rfl rfl⟩

/-- Claim C3: a restart issues the awaited stop on the unit before the start,
and the start is attempted for every reported stop outcome — in particular
when the stop reports that the unit was not running. The trace is the same
for every `env.stopOutcome`. -/
theorem restart_stops_then_starts (name : String) (show_status : Bool) (env : RestartEnv)
    (hc : env.connOk = true) :
    (handle_restart_service name show_status env).effects =
      [RestartEffect.stopUnit (env.fullServiceName name) env.stopOutcome,
       RestartEffect.print ("Stopped " ++ name),
       RestartEffect.startUnit (env.fullServiceName name),
       RestartEffect.print ("Started " ++ name)] ++
      (if show_status then [RestartEffect.showStatus] else []) := by
  unfold handle_restart_service
  simp only [hc, Bool.not_true, Bool.false_eq_true, if_false, ite_false]
  cases show_status <;> simp

theorem restart_stops_then_starts_witness :
    sampleRestartEnv.connOk = true ∧
    (handle_restart_service "web" true sampleRestartEnv).effects =
      [RestartEffect.stopUnit "web.ser.service" StopOutcome.notRunning,
       RestartEffect.print "Stopped web",
       RestartEffect.startUnit "web.ser.service",
       RestartEffect.print "Started web"] ++ [RestartEffect.showStatus] :=
  ⟨rfl, restart_stops_then_starts "web" true sampleRestartEnv rfl⟩

/-- Claim C2: creating a service whose resolved unit-file path already exists
fails with the already-exists error, performs no effect at all (in particular
no filesystem write), and the outcome does not depend on any of the
environment facilities used to resolve the run-as user, the interpreter or
the working directory — the failure happens before those resolutions. -/
theorem create_fails_on_existing_unit (args : CreateArgs) (env env2 : Env)
    (path service_name : String)
    (hp : args.command.head? = some path)
    (hn : args.name.or (env.pathFileName path) = some service_name)
    (hex : env.fileExists (env.serviceFilePath (env.fullServiceName service_name)) = true)
    (h1 : env2.fileExists = env.fileExists)
    (h2 : env2.pathFileName = env.pathFileName)
    (h3 : env2.fullServiceName = env.fullServiceName)
    (h4 : env2.serviceFilePath = env.serviceFilePath) :
    handle_create_service args env =
      { effects := [],
        result := Except.error ("Service " ++ service_name ++ " already exists at " ++
          env.serviceFilePath (env.fullServiceName service_name) ++
          ". Provide a custom name with --name or delete the existing service with `ser delete " ++
          service_name) } ∧
    handle_create_service args env2 = handle_create_service args env := by
  have key : ∀ e3 : Env, e3.fileExists = env.fileExists → e3.pathFileName = env.pathFileName →
      e3.fullServiceName = env.fullServiceName → e3.serviceFilePath = env.serviceFilePath →
      handle_create_service args e3 =
        { effects := [],
          result := Except.error ("Service " ++ service_name ++ " already exists at " ++
            env.serviceFilePath (env.fullServiceName service_name) ++
            ". Provide a custom name with --name or delete the existing service with `ser delete " ++
            service_name) } := by
    intro e3 g1 g2 g3 g4
    unfold handle_create_service resolve_create
    simp only [hp, g1, g2, g3, g4, hn, hex, if_true, ite_true]
  exact ⟨key env rfl rfl rfl rfl, (key env2 h1 h2 h3 h4).trans (key env rfl rfl rfl rfl).symm⟩

theorem create_fails_on_existing_unit_witness :
    sampleArgs.command.head? = some "index.js" ∧
    sampleArgs.name.or (sampleEnvTaken.pathFileName "index.js") = some "index.js" ∧
    sampleEnvTaken.fileExists
      (sampleEnvTaken.serviceFilePath (sampleEnvTaken.fullServiceName "index.js")) = true ∧
    sampleEnvTakenAlt.fileExists = sampleEnvTaken.fileExists ∧
    sampleEnvTakenAlt.pathFileName = sampleEnvTaken.pathFileName ∧
    sampleEnvTakenAlt.fullServiceName = sampleEnvTaken.fullServiceName ∧
    sampleEnvTakenAlt.serviceFilePath = sampleEnvTaken.serviceFilePath ∧
    (handle_create_service sampleArgs sampleEnvTaken =
      { effects := [],
        result := Except.error
          "Service index.js already exists at /etc/systemd/system/index.js.ser.service. Provide a custom name with --name or delete the existing service with `ser delete index.js" } ∧
     handle_create_service sampleArgs sampleEnvTakenAlt =
       handle_create_service sampleArgs sampleEnvTaken) :=
  ⟨rfl, rfl, rfl, rfl, rfl, rfl, rfl,
   create_fails_on_existing_unit sampleArgs sampleEnvTaken sampleEnvTakenAlt "index.js"
     "index.js" rfl rfl rfl rfl rfl rfl rfl⟩

/-- Claim C4: a dry-run create prints the synthesized definition text and
terminates with no filesystem write and no control-plane call — its only
possible effect, on every path, is the single print of the synthesized
text. -/
theorem dry_run_create_prints_only (args : CreateArgs) (env : Env)
    (hdry : args.debug = true) :
    handle_create_service args env =
      { effects :=
          match resolve_create args env with
          | Except.error _ => []
          | Except.ok spec =>
            [Effect.print (create_service_file spec.command spec.directory spec.user
              spec.envVars spec.autoRestart)]
        result :=
          match resolve_create args env with
          | Except.error e => Except.error e
          | Except.ok _ => Except.ok () } := by
  unfold handle_create_service
  cases h : resolve_create args env with
  | error e => rfl
  | ok spec => unfold execute_create; simp [hdry]

theorem dry_run_create_prints_only_witness :
    sampleArgsDry.debug = true ∧
    handle_create_service sampleArgsDry sampleEnv =
      { effects := [Effect.print (create_service_file ["/usr/bin/node", "index.js"]
          "/home/alice" "alice" ["FOO=BAR"] true)],
        result := Except.ok () } :=
  ⟨rfl, dry_run_create_prints_only sampleArgsDry sampleEnv rfl⟩

/-- Claim C10: in a non-dry-run create that reaches its chained steps, the
effect trace is exactly write, created-message print, then the start call
when the start flag is set, then the enable call when the enable flag is set,
then the status query — so start completes before enable, the status query
comes only after both, and the status query also runs when neither flag is
set. -/
theorem create_start_enable_status_order (args : CreateArgs) (env : Env)
    (spec : ResolvedUnitSpec)
    (hdry : args.debug = false) (hw : env.writeOk = true)
    (hs : env.startOk = true) (he : env.enableOk = true)
    (hok : resolve_create args env = Except.ok spec) :
    (handle_create_service args env).effects =
      [Effect.write spec.serviceFilePath
         (create_service_file spec.command spec.directory spec.user spec.envVars
           spec.autoRestart),
       Effect.print ("Service " ++ spec.serviceName ++ " created at " ++
         spec.serviceFilePath ++ ". To start run `ser start " ++ spec.serviceName ++ "`")] ++
      (if args.start then [Effect.startService spec.serviceName] else []) ++
      (if args.enable then [Effect.enableService spec.serviceName] else []) ++
      [Effect.showStatus] := by
  unfold handle_create_service
  rw [hok]
  unfold execute_create
  simp only [hdry, hw, hs, he, Bool.not_true, Bool.and_false, Bool.false_eq_true,
    if_false, ite_false]

theorem create_start_enable_status_order_witness :
    sampleArgs.debug = false ∧ sampleEnv.writeOk = true ∧ sampleEnv.startOk = true ∧
    sampleEnv.enableOk = true ∧ resolve_create sampleArgs sampleEnv = Except.ok sampleSpec ∧
    (handle_create_service sampleArgs sampleEnv).effects =
      [Effect.write sampleSpec.serviceFilePath
         (create_service_file sampleSpec.command sampleSpec.directory sampleSpec.user
           sampleSpec.envVars sampleSpec.autoRestart),
       Effect.print ("Service " ++ sampleSpec.serviceName ++ " created at " ++
         sampleSpec.serviceFilePath ++ ". To start run `ser start " ++
         sampleSpec.serviceName ++ "`")] ++
      [Effect.startService sampleSpec.serviceName] ++
      [Effect.enableService sampleSpec.serviceName] ++
      [Effect.showStatus] :=
  ⟨rfl, rfl, rfl, rfl, rfl,
   create_start_enable_status_order sampleArgs sampleEnv sampleSpec rfl rfl rfl rfl rfl⟩

/-- Claim C9: once a non-dry-run create has persisted the unit file, no later
step removes or modifies it — whatever the outcomes of the chained start,
enable and status steps, the trace contains exactly one write, of the
synthesized content at the resolved unit-file path, and the effect vocabulary
of the handler contains no removal at all. -/
theorem persisted_unit_survives_control_plane (args : CreateArgs) (env : Env)
    (spec : ResolvedUnitSpec)
    (hdry : args.debug = false) (hw : env.writeOk = true)
    (hok : resolve_create args env = Except.ok spec) :
    (handle_create_service args env).effects.filter Effect.isWrite =
      [Effect.write spec.serviceFilePath
        (create_service_file spec.command spec.directory spec.user spec.envVars
          spec.autoRestart)] := by
  unfold handle_create_service
  rw [hok]
  unfold execute_create
  simp only [hdry, hw, Bool.not_true, Bool.false_eq_true, if_false, ite_false]
  cases args.start <;> cases env.startOk <;> cases args.enable <;> cases env.enableOk <;>
    simp [Effect.isWrite, List.filter_append, List.filter]

theorem persisted_unit_survives_control_plane_witness :
    sampleArgs.debug = false ∧ sampleEnv.writeOk = true ∧
    resolve_create sampleArgs sampleEnv = Except.ok sampleSpec ∧
    (handle_create_service sampleArgs sampleEnv).effects.filter Effect.isWrite =
      [Effect.write sampleSpec.serviceFilePath
        (create_service_file sampleSpec.command sampleSpec.directory sampleSpec.user
          sampleSpec.envVars sampleSpec.autoRestart)] :=
  ⟨rfl, rfl, rfl,
   persisted_unit_survives_control_plane sampleArgs sampleEnv sampleSpec rfl rfl rfl⟩

/-- Claim C6: the working directory a create resolves into the unit
specification is the one the specification describes — the explicit directory
(canonicalized) when given; otherwise, when an interpreter was resolved, the
parent of the target file (the current directory when that parent is empty);
otherwise the current directory. -/
theorem create_working_directory (args : CreateArgs) (env : Env) (spec : ResolvedUnitSpec)
    (path : String) (hp : args.command.head? = some path)
    (hok : resolve_create args env = Except.ok spec) :
    spec_working_directory args env path
      (args.interpreter.or (get_interpreter (env.pathExtension path))).isSome =
      some spec.directory := by
  obtain ⟨n, u, interp, hn, hu, hi, ht⟩ := resolve_create_ok_inv args env spec path hp hok
  have hdir := (resolve_tail_ok args env path n
    (env.serviceFilePath (env.fullServiceName n)) u interp spec ht).2.2.2.2.2.1
  cases hcase : args.interpreter.or (get_interpreter (env.pathExtension path)) with
  | none =>
    simp only [hcase] at hi
    rw [hi] at hdir
    exact hdir
  | some i =>
    simp only [hcase] at hi
    obtain ⟨bin, hb, hio⟩ := hi
    rw [hio] at hdir
    simp only [Option.isSome_some] at hdir ⊢
    exact hdir

theorem create_working_directory_witness :
    sampleArgs.command.head? = some "index.js" ∧
    resolve_create sampleArgs sampleEnv = Except.ok sampleSpec ∧
    spec_working_directory sampleArgs sampleEnv "index.js"
      (sampleArgs.interpreter.or
        (get_interpreter (sampleEnv.pathExtension "index.js"))).isSome =
      some sampleSpec.directory :=
  ⟨rfl, rfl, create_working_directory sampleArgs sampleEnv sampleSpec "index.js" rfl rfl⟩

/-- Claim C7: without an explicit interpreter, the interpreter is inferred
from the target extension — `js` yields the node runtime and `py` yields
`python3`, each then resolved through the user-scoped PATH lookup and
prepended as the first command token; any other or missing extension yields
no interpreter, so no token is prepended. -/
theorem interpreter_inferred_from_extension (args : CreateArgs) (env : Env)
    (spec : ResolvedUnitSpec) (path : String)
    (hp : args.command.head? = some path)
    (hni : args.interpreter = none)
    (hok : resolve_create args env = Except.ok spec) :
    (match env.pathExtension path with
     | some e =>
       match ext_to_interpreter e with
       | some iname =>
         (env.findBinaryPath iname spec.user).isSome = true ∧
         spec.command = (env.findBinaryPath iname spec.user).toList ++ args.command
       | none => spec.command.length = args.command.length
     | none => spec.command.length = args.command.length) := by
  obtain ⟨n, u, interp, hn, hu, hi, ht⟩ := resolve_create_ok_inv args env spec path hp hok
  have hf := resolve_tail_ok args env path n
    (env.serviceFilePath (env.fullServiceName n)) u interp spec ht
  have huser : spec.user = u := hf.2.2.1
  have hcmd : spec.command = resolved_command args env path u interp := hf.2.2.2.2.2.2
  simp only [hni, Option.none_or] at hi
  have hlen : interp = none → spec.command.length = args.command.length := by
    intro hinone
    rw [hcmd, hinone]
    unfold resolved_command
    rcases hc2 : args.command with _ | ⟨a, t⟩
    · rw [hc2] at hp; cases hp
    · cases hfile : env.pathIsFile path
      · cases hfb : env.findBinaryPath path u <;> simp [hfb]
      · simp
  cases hext : env.pathExtension path with
  | none =>
    simp only [hext, get_interpreter] at hi
    exact hlen hi
  | some e =>
    simp only [hext, get_interpreter_some] at hi
    show (match ext_to_interpreter e with
          | some iname =>
            (env.findBinaryPath iname spec.user).isSome = true ∧
            spec.command = (env.findBinaryPath iname spec.user).toList ++ args.command
          | none => spec.command.length = args.command.length)
    split
    next iname hmap =>
      rw [hmap] at hi
      simp only at hi
      obtain ⟨bin, hb, hio⟩ := hi
      rw [huser, hb]
      refine ⟨rfl, ?_⟩
      rw [hcmd, hio]
      simp [resolved_command]
    next hmap =>
      rw [hmap] at hi
      simp only at hi
      exact hlen hi

theorem interpreter_inferred_from_extension_witness :
    sampleArgs.command.head? = some "index.js" ∧ sampleArgs.interpreter = none ∧
    resolve_create sampleArgs sampleEnv = Except.ok sampleSpec ∧
    ((sampleEnv.findBinaryPath "node" sampleSpec.user).isSome = true ∧
     sampleSpec.command = (sampleEnv.findBinaryPath "node" sampleSpec.user).toList ++
       sampleArgs.command) :=
  ⟨rfl, rfl, rfl,
   interpreter_inferred_from_extension sampleArgs sampleEnv sampleSpec "index.js" rfl rfl rfl⟩

/-- Claim C8: when no interpreter applies and the target is not directly a
file, the first command token itself is resolved through the user-scoped PATH
lookup — on success the first token is replaced by the found absolute path,
otherwise the command list is left unchanged. -/
theorem first_token_path_fallback (args : CreateArgs) (env : Env) (spec : ResolvedUnitSpec)
    (path : String)
    (hp : args.command.head? = some path)
    (hni : args.interpreter = none)
    (hext : get_interpreter (env.pathExtension path) = none)
    (hnf : env.pathIsFile path = false)
    (hok : resolve_create args env = Except.ok spec) :
    spec.command =
      (match env.findBinaryPath path spec.user with
       | some bin => bin :: args.command.tail
       | none => args.command) := by
  obtain ⟨n, u, interp, hn, hu, hi, ht⟩ := resolve_create_ok_inv args env spec path hp hok
  have hf := resolve_tail_ok args env path n
    (env.serviceFilePath (env.fullServiceName n)) u interp spec ht
  have huser : spec.user = u := hf.2.2.1
  have hcmd : spec.command = resolved_command args env path u interp := hf.2.2.2.2.2.2
  simp only [hni, Option.none_or, hext] at hi
  rw [huser, hcmd, hi]
  unfold resolved_command
  simp only [hnf, Bool.false_eq_true, if_false, ite_false]

theorem first_token_path_fallback_witness :
    sampleArgsBin.command.head? = some "myprog" ∧
    sampleArgsBin.interpreter = none ∧
    get_interpreter (sampleEnv.pathExtension "myprog") = none ∧
    sampleEnv.pathIsFile "myprog" = false ∧
    resolve_create sampleArgsBin sampleEnv = Except.ok sampleSpecBin ∧
    sampleSpecBin.command = sampleArgsBin.command :=
  ⟨rfl, rfl, rfl, rfl, rfl,
   first_token_path_fallback sampleArgsBin sampleEnv sampleSpecBin "myprog" rfl rfl rfl rfl rfl⟩
